import Mathlib

/-!
Shallow embedding of the `opps.core` model and admin layer
(`src/opps/core/models.py`, `src/opps/core/admin.py`).

Conventions of the embedding:
* Timestamps are integers (`Int`); the evaluation instant `now` is passed
  explicitly where the source calls `timezone.now()`.
* Nullable database columns are `Option` values.
* Python runtime values returned by the configuration store are `PyVal`
  (Python is dynamically typed: `False`, `""`, parsed JSON are distinct values).
* Fallible Python code returns `Except PyErr`; an uncaught exception is an
  `Except.error`.
* The ORM stores are explicit lists of rows; `Model.save` is an upsert.
-/

/-- Python exceptions that the modelled code can raise. `exn` stands for an
arbitrary exception escaping `get_absolute_url` (the source does not catch it
in `Slugged.save`). -/
inductive PyErr where
  | validationError (msg : String)
  | doesNotExist
  | integrityError
  | valueError
  | exn
deriving DecidableEq, Repr

/-- A Python runtime value: the configuration API can return the boolean
`False` sentinel, raw strings, or structures parsed from JSON. -/
inductive PyVal where
  | none
  | bool (b : Bool)
  | int (n : Int)
  | str (s : String)
  | list (xs : List PyVal)
  | dict (xs : List (String × PyVal))

/-! ## Model of the Python stdlib `json.loads` (external collaborator)

`BaseConfig.format_value` delegates JSON parsing to `json.loads`. We model the
JSON fragment without floats and without escape sequences in strings, which is
faithful on every input the configuration values in the claims use. -/

def isJsonWs (c : Char) : Bool :=
  c = ' ' || c = '\t' || c = '\n' || c = '\r'

def skipWs : List Char → List Char
  | [] => []
  | c :: cs => if isJsonWs c then skipWs cs else c :: cs

/-- Parse the body of a JSON string literal (after the opening quote),
up to the closing quote. No escape sequences. -/
def parseStrChars : List Char → Option (List Char × List Char)
  | [] => Option.none
  | c :: cs =>
    if c = '"' then Option.some ([], cs)
    else (parseStrChars cs).map (fun p => (c :: p.1, p.2))

def takeDigits : List Char → List Char × List Char
  | [] => ([], [])
  | c :: cs =>
    if c.isDigit then
      let p := takeDigits cs
      (c :: p.1, p.2)
    else ([], c :: cs)

def digitsToNat (ds : List Char) : Nat :=
  ds.foldl (fun acc c => acc * 10 + (c.toNat - 48)) 0

mutual

/-- Fuel-indexed recursive-descent parser for one JSON value. -/
def parseVal : Nat → List Char → Option (PyVal × List Char)
  | 0, _ => Option.none
  | fuel + 1, input =>
    match skipWs input with
    | [] => Option.none
    | c :: cs =>
      if c = '"' then
        (parseStrChars cs).map (fun p => (PyVal.str (String.mk p.1), p.2))
      else if c = '{' then
        match skipWs cs with
        | '}' :: rest => Option.some (PyVal.dict [], rest)
        | rest => (parseMembers fuel rest).map (fun p => (PyVal.dict p.1, p.2))
      else if c = '[' then
        match skipWs cs with
        | ']' :: rest => Option.some (PyVal.list [], rest)
        | rest => (parseElems fuel rest).map (fun p => (PyVal.list p.1, p.2))
      else if c = 't' then
        match cs with
        | 'r' :: 'u' :: 'e' :: rest => Option.some (PyVal.bool true, rest)
        | _ => Option.none
      else if c = 'f' then
        match cs with
        | 'a' :: 'l' :: 's' :: 'e' :: rest => Option.some (PyVal.bool false, rest)
        | _ => Option.none
      else if c = 'n' then
        match cs with
        | 'u' :: 'l' :: 'l' :: rest => Option.some (PyVal.none, rest)
        | _ => Option.none
      else if c = '-' then
        match takeDigits cs with
        | ([], _) => Option.none
        | (ds, rest) => Option.some (PyVal.int (-(digitsToNat ds : Int)), rest)
      else if c.isDigit then
        let p := takeDigits (c :: cs)
        Option.some (PyVal.int (digitsToNat p.1), p.2)
      else Option.none

/-- Members of a JSON object after the opening brace (nonempty case). -/
def parseMembers : Nat → List Char → Option (List (String × PyVal) × List Char)
  | 0, _ => Option.none
  | fuel + 1, input =>
    match skipWs input with
    | '"' :: cs =>
      match parseStrChars cs with
      | Option.none => Option.none
      | Option.some (k, rest) =>
        match skipWs rest with
        | ':' :: rest2 =>
          match parseVal fuel rest2 with
          | Option.none => Option.none
          | Option.some (v, rest3) =>
            match skipWs rest3 with
            | ',' :: rest4 =>
              (parseMembers fuel rest4).map
                (fun p => ((String.mk k, v) :: p.1, p.2))
            | '}' :: rest4 => Option.some ([(String.mk k, v)], rest4)
            | _ => Option.none
        | _ => Option.none
    | _ => Option.none

/-- Elements of a JSON array after the opening bracket (nonempty case). -/
def parseElems : Nat → List Char → Option (List PyVal × List Char)
  | 0, _ => Option.none
  | fuel + 1, input =>
    match parseVal fuel input with
    | Option.none => Option.none
    | Option.some (v, rest) =>
      match skipWs rest with
      | ',' :: rest2 => (parseElems fuel rest2).map (fun p => (v :: p.1, p.2))
      | ']' :: rest2 => Option.some ([v], rest2)
      | _ => Option.none

end

/-- Model of `json.loads`: parse a full JSON document; `Option.none` is a
`ValueError`. -/
def jsonLoads (s : String) : Option PyVal :=
  match parseVal (s.length + 1) s.data with
  | Option.some (v, rest) =>
    if (skipWs rest).isEmpty then Option.some v else Option.none
  | Option.none => Option.none

/-! ## `Date` / `Publishable` (`models.py` lines 14-43)

`Date` contributes `date_insert` (`auto_now_add`) and `date_update`
(`auto_now`).  `Publishable` adds `user`, `site`, `date_available`
(nullable, `null=True`) and `published`.  `site` is a non-null foreign key
with default pk 1. -/

structure Publishable where
  user : Nat
  site : Nat
  date_available : Option Int
  published : Bool
  date_insert : Int
  date_update : Int
deriving DecidableEq, Repr

/-- Python 2 comparison `self.date_available <= timezone.now()`:
`None` compares below every datetime, so a `NULL` availability date passes. -/
def pyDateLe (d : Option Int) (now : Int) : Bool :=
  match d with
  | Option.none => true
  | Option.some t => t ≤ now

/-- SQL comparison used by the ORM filter `date_available__lte=now`:
a `NULL` column never satisfies `<=`. -/
def sqlDateLe (d : Option Int) (now : Int) : Bool :=
  match d with
  | Option.none => false
  | Option.some t => t ≤ now

/-- `Publishable.is_published` (`models.py` lines 42-43):
`self.published and self.date_available <= timezone.now()`. -/
def Publishable.is_published (self : Publishable) (now : Int) : Bool :=
  self.published && pyDateLe self.date_available now

/-- The automatic timestamp behaviour of the `Date` base model on
`Model.save`: `auto_now_add` sets `date_insert` at insertion only,
`auto_now` refreshes `date_update` on every save. -/
def Date.auto_fields (isInsert : Bool) (now : Int) (obj : Publishable) :
    Publishable :=
  ⟨obj.user, obj.site, obj.date_available, obj.published,
    if isInsert then now else obj.date_insert, now⟩

/-- `PublishableAdmin.save_model` (`admin.py` lines 83-89) composed with the
`Date` automatic fields of the subsequent `obj.save()`.  `change = false`
means the admin is creating the object (first save). -/
def PublishableAdmin.save_model (request_user_pk site_id : Nat) (now : Int)
    (change : Bool) (obj : Publishable) : Publishable :=
  let obj1 :=
    if change then obj
    else ⟨request_user_pk, site_id, obj.date_available, obj.published,
      now, obj.date_update⟩
  let obj2 := ⟨obj1.user, obj1.site, obj1.date_available, obj1.published,
    obj1.date_insert, now⟩
  Date.auto_fields (!change) now obj2

/-! ## `Slugged` (`models.py` lines 46-93) and the redirect store

A concrete `Slugged` instance carries a primary key (absent before the first
save), its slug and its site (`site` comes from the concrete subclass, a
non-null foreign key).  The concrete class may or may not define
`get_absolute_url` (the source probes with `hasattr`); when defined it is an
arbitrary method of the instance that can raise (`Option.none`). -/

structure Slugged where
  pk : Option Nat
  slug : String
  site : Nat
deriving DecidableEq, Repr

/-- The capability record of a concrete `Slugged` subclass. -/
structure SluggedClass where
  hasGetAbsoluteUrl : Bool
  get_absolute_url : Slugged → Option String

/-- A row of `django.contrib.redirects.models.Redirect`. -/
structure Redirect where
  site : Nat
  old_path : String
  new_path : String
deriving DecidableEq, Repr

/-- The persistent state a `Slugged` save touches: the model's own table,
the redirect table, and the next fresh primary key. -/
structure SlugDB where
  objects : List Slugged
  redirects : List Redirect
  nextPk : Nat
deriving DecidableEq, Repr

/-- The framework `Model.save` (`super(Slugged, self).save()`): insert with a
fresh pk when `self.pk` is absent, otherwise update the row in place. -/
def Slugged.model_save (db : SlugDB) (self : Slugged) : SlugDB :=
  match self.pk with
  | Option.some pk =>
    ⟨db.objects.map (fun o => if o.pk == Option.some pk then self else o),
      db.redirects, db.nextPk⟩
  | Option.none =>
    ⟨db.objects ++ [⟨Option.some db.nextPk, self.slug, self.site⟩],
      db.redirects, db.nextPk + 1⟩

/-- `Slugged.save` (`models.py` lines 77-90).  When the class defines
`get_absolute_url` and the instance is already persisted, the old row is
loaded (`model.objects.get(pk=self.pk)`, raising `DoesNotExist` when absent);
if its slug differs a `Redirect(site=self.site, old_path=old.get_absolute_url(),
new_path=self.get_absolute_url())` is saved first.  The source wraps none of
this in a handler: an exception from `get_absolute_url` aborts the save. -/
def Slugged.save (cls : SluggedClass) (self : Slugged) (db : SlugDB) :
    Except PyErr SlugDB :=
  if cls.hasGetAbsoluteUrl then
    match self.pk with
    | Option.none => Except.ok (Slugged.model_save db self)
    | Option.some pk =>
      match db.objects.find? (fun o => o.pk == Option.some pk) with
      | Option.none => Except.error PyErr.doesNotExist
      | Option.some old =>
        if old.slug ≠ self.slug then
          match cls.get_absolute_url old with
          | Option.none => Except.error PyErr.exn
          | Option.some oldPath =>
            match cls.get_absolute_url self with
            | Option.none => Except.error PyErr.exn
            | Option.some newPath =>
              Except.ok (Slugged.model_save
                ⟨db.objects,
                  db.redirects ++ [⟨self.site, oldPath, newPath⟩],
                  db.nextPk⟩ self)
        else Except.ok (Slugged.model_save db self)
  else Except.ok (Slugged.model_save db self)

/-- `Slugged.clean` (`models.py` lines 55-75).  When the class defines
`get_absolute_url`, the intended path is computed, falling back to the raw
slug when `get_absolute_url` raises; a `Redirect` on the instance's site whose
`old_path` equals that path makes validation fail.  (`site` being a non-null
foreign key, the `self.site or Site.objects.get(pk=1)` default branch is not
exercised; the trailing `super().clean()` call is a no-op.) -/
def Slugged.clean (cls : SluggedClass) (self : Slugged) (db : SlugDB) :
    Except PyErr Unit :=
  if cls.hasGetAbsoluteUrl then
    let path :=
      match cls.get_absolute_url self with
      | Option.some p => p
      | Option.none => self.slug
    if db.redirects.any (fun r => r.site == self.site && r.old_path == path)
    then Except.error (PyErr.validationError "The URL already exists as a redirect")
    else Except.ok ()
  else Except.ok ()

/-- The full framework save path of a validated model: `clean` (run by
`full_clean` before the admin/form saves) followed by `save`; a validation
error blocks persistence. -/
def Slugged.full_save (cls : SluggedClass) (self : Slugged) (db : SlugDB) :
    Except PyErr SlugDB :=
  match Slugged.clean cls self db with
  | Except.error e => Except.error e
  | Except.ok _ => Slugged.save cls self db

/-! ## `BaseConfig` (`models.py` lines 123-239)

A row of the key/value configuration store.  `key` is a `unique=True` column;
`key_group`, `description`, `article` and `channel` are nullable;
`Meta.unique_together = ("key_group", "key", "site", "channel", "article")`. -/

inductive CFormat where
  | text
  | json
  | yaml
deriving DecidableEq, Repr

structure BaseConfig where
  user : Nat
  site : Nat
  date_available : Option Int
  published : Bool
  date_insert : Int
  date_update : Int
  key_group : Option String
  key : String
  format : CFormat
  value : String
  description : Option String
  article : Option Nat
  channel : Option Nat
deriving DecidableEq, Repr

/-- `BaseConfig.format_value` (`models.py` lines 182-189): text is returned
as-is, json goes through `json.loads` (a parse failure raises `ValueError`),
yaml returns the literal string `"TODO"`. -/
def BaseConfig.format_value (value : String) : CFormat → Except PyErr PyVal
  | CFormat.text => Except.ok (PyVal.str value)
  | CFormat.json =>
    match jsonLoads value with
    | Option.some v => Except.ok v
    | Option.none => Except.error PyErr.valueError
  | CFormat.yaml => Except.ok (PyVal.str "TODO")

/-- The keyword filters `get_value`/`get_values` accept (equality filters the
docstring names: site, channel, article, format; each `Option.none` means the
keyword was not supplied; filtering a nullable column by `None` is an SQL
`IS NULL` test, which plain equality on the `Option` models). -/
structure ScopeFilter where
  site : Option Nat
  channel : Option (Option Nat)
  article : Option (Option Nat)
  format : Option CFormat
deriving DecidableEq, Repr

/-- The keyword filter with no keywords supplied. -/
def ScopeFilter.empty : ScopeFilter :=
  ⟨Option.none, Option.none, Option.none, Option.none⟩

def ScopeFilter.matches (f : ScopeFilter) (r : BaseConfig) : Bool :=
  (match f.site with
   | Option.none => true
   | Option.some s => r.site == s) &&
  (match f.channel with
   | Option.none => true
   | Option.some c => r.channel == c) &&
  (match f.article with
   | Option.none => true
   | Option.some a => r.article == a) &&
  (match f.format with
   | Option.none => true
   | Option.some fmt => r.format == fmt)

/-- The queryset built by `get_value` (`models.py` lines 198-204):
`filter(key=key, published=True, date_available__lte=now)` then
`filter(**kwargs)` (a no-op when no keyword is supplied, which the extra
`if kwargs:` guard of the source also makes a no-op). -/
def BaseConfig.matching (rows : List BaseConfig) (now : Int) (key : String)
    (f : ScopeFilter) : List BaseConfig :=
  ((rows.filter (fun r =>
      r.key == key && r.published && sqlDateLe r.date_available now)).filter
    (fun r => f.matches r))

/-- Django's `queryset.latest('date_insert')`: the row with the greatest
`date_insert` (`DoesNotExist` on an empty queryset; ties broken arbitrarily,
as in the database). -/
def BaseConfig.latest_by_date_insert : List BaseConfig → Option BaseConfig
  | [] => Option.none
  | r :: rs =>
    match BaseConfig.latest_by_date_insert rs with
    | Option.none => Option.some r
    | Option.some m =>
      Option.some (if m.date_insert > r.date_insert then m else r)

/-- `BaseConfig.get_value` (`models.py` lines 191-214): filter, return the
Python boolean `False` when nothing matches, otherwise format the value of
the `latest('date_insert')` row. -/
def BaseConfig.get_value (rows : List BaseConfig) (now : Int) (key : String)
    (f : ScopeFilter) : Except PyErr PyVal :=
  let instances := BaseConfig.matching rows now key f
  if instances.isEmpty then Except.ok (PyVal.bool false)
  else
    match BaseConfig.latest_by_date_insert instances with
    | Option.some r => BaseConfig.format_value r.value r.format
    | Option.none => Except.error PyErr.doesNotExist

/-- SQL equality of two nullable columns as a `UNIQUE` constraint sees it:
`NULL` is distinct from everything, including another `NULL`. -/
def sqlUniqueEq {α : Type} [BEq α] : Option α → Option α → Bool
  | Option.some a, Option.some b => a == b
  | _, _ => false

/-- Violation of the column constraint `unique=True` on `key`
(`models.py` lines 150-155). -/
def BaseConfig.key_conflict (x r : BaseConfig) : Bool :=
  x.key == r.key

/-- Violation of `Meta.unique_together = ("key_group", "key", "site",
"channel", "article")` (`models.py` line 177), with SQL `NULL` semantics on
the nullable members. -/
def BaseConfig.tuple_conflict (x r : BaseConfig) : Bool :=
  sqlUniqueEq x.key_group r.key_group && x.key == r.key && x.site == r.site &&
  sqlUniqueEq x.channel r.channel && sqlUniqueEq x.article r.article

/-- Inserting a new row into the configuration table: the storage layer
rejects (IntegrityError) any row violating the `key` column uniqueness or the
`unique_together` tuple. -/
def BaseConfig.insert (rows : List BaseConfig) (r : BaseConfig) :
    Except PyErr (List BaseConfig) :=
  if rows.any (fun x => BaseConfig.key_conflict x r) ||
      rows.any (fun x => BaseConfig.tuple_conflict x r)
  then Except.error PyErr.integrityError
  else Except.ok (rows ++ [r])

/-! ## Concrete instances used to exercise the definitions -/

/-- A concrete `Slugged` subclass whose canonical path prefixes the slug
with `/`. -/
def urlCls : SluggedClass := ⟨true, fun o => Option.some (String.append "/" o.slug)⟩

/-- A concrete `Slugged` subclass without `get_absolute_url`. -/
def noUrlCls : SluggedClass := ⟨false, fun _ => Option.none⟩

/-- A concrete `Slugged` subclass whose `get_absolute_url` always raises. -/
def failUrlCls : SluggedClass := ⟨true, fun _ => Option.none⟩

def rowA : Slugged := ⟨Option.some 1, "a", 1⟩

def rowB : Slugged := ⟨Option.some 1, "b", 1⟩

def newB : Slugged := ⟨Option.none, "b", 1⟩

/-- A store holding the persisted `rowA` and no redirects. -/
def dbA : SlugDB := ⟨[rowA], [], 2⟩

/-- A store holding a redirect on site 1 whose source is `/b`. -/
def dbRedir : SlugDB := ⟨[], [⟨1, "/b", "/c"⟩], 5⟩

/-- A store holding a redirect on site 2 (not site 1) whose source is `/b`. -/
def dbCross : SlugDB := ⟨[], [⟨2, "/b", "/c"⟩], 5⟩

/-- A store holding a redirect on site 1 whose source is the raw slug `b`. -/
def dbRawRedir : SlugDB := ⟨[], [⟨1, "b", "/c"⟩], 5⟩

def pubEx : Publishable := ⟨7, 1, Option.some 100, true, 0, 0⟩

def cfgK1 : BaseConfig :=
  ⟨1, 1, Option.some 0, true, 10, 10, Option.some "g", "k",
    CFormat.text, "v1", Option.none, Option.none, Option.none⟩

def cfgK2 : BaseConfig :=
  ⟨1, 1, Option.some 0, true, 20, 20, Option.some "g", "k",
    CFormat.text, "v2", Option.none, Option.none, Option.none⟩

/-- Same `key` and `key_group` as `cfgK1` but a different `site`. -/
def cfgSite2 : BaseConfig :=
  ⟨1, 2, Option.some 0, true, 30, 30, Option.some "g", "k",
    CFormat.text, "v3", Option.none, Option.none, Option.none⟩

/-- A row whose `key` is fresh relative to `cfgK1`. -/
def cfgJ : BaseConfig :=
  ⟨1, 1, Option.some 0, true, 40, 40, Option.some "g", "j",
    CFormat.text, "v4", Option.none, Option.none, Option.none⟩

/-! ## Helper lemmas -/

/-- The framework `Model.save` never touches the redirect table. -/
theorem Slugged.model_save_redirects (db : SlugDB) (self : Slugged) :
    (Slugged.model_save db self).redirects = db.redirects := by
  cases h : self.pk <;> simp [Slugged.model_save, h]

/-! ## Claim theorems -/

/-- C5: for every Publishable entity and every evaluation instant,
`is_published()` is true iff the `published` flag is set and `date_available`
is at most the current time; an entity whose `date_available` equals the
evaluation instant counts as published (inclusive boundary). -/
theorem C5_is_published_iff :
    (∀ (p : Publishable) (now t : Int), p.date_available = Option.some t →
      (Publishable.is_published p now = true ↔ p.published = true ∧ t ≤ now)) ∧
    (∀ (p : Publishable) (now : Int), p.published = true →
      p.date_available = Option.some now →
      Publishable.is_published p now = true) := by
  constructor
  · intro p now t h
    simp [Publishable.is_published, pyDateLe, h]
  · intro p now h1 h2
    simp [Publishable.is_published, pyDateLe, h1, h2]

theorem C5_witness :
    (Publishable.is_published pubEx 100 = true ↔
      pubEx.published = true ∧ (100 : Int) ≤ 100) ∧
    Publishable.is_published pubEx 100 = true :=
  ⟨C5_is_published_iff.1 pubEx 100 100 rfl, C5_is_published_iff.2 pubEx 100 rfl rfl⟩

/-- C8: `format_value` parses `'\x7b"a":1\x7d'` into the mapping `a ↦ 1`
under format `json`, is the identity on the raw string under format `text`,
and returns the literal placeholder string `"TODO"` under format `yaml`. -/
theorem C8_format_value_formats :
    BaseConfig.format_value "\x7b\"a\":1\x7d" CFormat.json
        = Except.ok (PyVal.dict [("a", PyVal.int 1)]) ∧
    (∀ v : String,
      BaseConfig.format_value v CFormat.text = Except.ok (PyVal.str v)) ∧
    (∀ v : String,
      BaseConfig.format_value v CFormat.yaml = Except.ok (PyVal.str "TODO")) :=
  ⟨rfl, fun _ => rfl, fun _ => rfl⟩

/-- C9: through the admin save path, `user`, `site` and `date_insert` are
assigned only on the creating save (`change = false`) and are left unchanged
by every subsequent save (`change = true`), while `date_update` is refreshed
to the current time on every save. -/
theorem C9_save_model_frame :
    (∀ (u s : Nat) (now : Int) (obj : Publishable),
      (PublishableAdmin.save_model u s now true obj).user = obj.user ∧
      (PublishableAdmin.save_model u s now true obj).site = obj.site ∧
      (PublishableAdmin.save_model u s now true obj).date_insert
          = obj.date_insert ∧
      (PublishableAdmin.save_model u s now true obj).date_update = now) ∧
    (∀ (u s : Nat) (now : Int) (obj : Publishable),
      (PublishableAdmin.save_model u s now false obj).user = u ∧
      (PublishableAdmin.save_model u s now false obj).site = s ∧
      (PublishableAdmin.save_model u s now false obj).date_insert = now ∧
      (PublishableAdmin.save_model u s now false obj).date_update = now) :=
  ⟨fun _ _ _ _ => ⟨rfl, rfl, rfl, rfl⟩, fun _ _ _ _ => ⟨rfl, rfl, rfl, rfl⟩⟩

/-- C7: a `get_value` lookup matching no published, currently-available row
returns the Python boolean `False`, and that sentinel is distinct from the
value returned for any stored row under format `text` (in particular from
the empty string and from the string `"False"`). -/
theorem C7_get_value_sentinel :
    (∀ (rows : List BaseConfig) (now : Int) (key : String) (f : ScopeFilter),
      BaseConfig.matching rows now key f = [] →
      BaseConfig.get_value rows now key f = Except.ok (PyVal.bool false)) ∧
    (∀ v : String,
      BaseConfig.format_value v CFormat.text ≠ Except.ok (PyVal.bool false)) := by
  constructor
  · intro rows now key f h
    simp [BaseConfig.get_value, h]
  · intro v h
    exact PyVal.noConfusion (Except.ok.inj h)

theorem C7_witness :
    BaseConfig.get_value [] 0 "missing" ScopeFilter.empty
        = Except.ok (PyVal.bool false) ∧
    BaseConfig.format_value "" CFormat.text ≠ Except.ok (PyVal.bool false) ∧
    BaseConfig.format_value "False" CFormat.text
        ≠ Except.ok (PyVal.bool false) :=
  ⟨C7_get_value_sentinel.1 [] 0 "missing" ScopeFilter.empty rfl,
    C7_get_value_sentinel.2 "", C7_get_value_sentinel.2 "False"⟩

/-- C6: when the rows matching a `get_value` lookup are exactly two rows with
different `date_insert` timestamps, `get_value` returns the formatted value of
the row with the later `date_insert`. -/
theorem C6_get_value_latest_wins :
    ∀ (rows : List BaseConfig) (now : Int) (key : String) (f : ScopeFilter)
      (r1 r2 : BaseConfig),
      BaseConfig.matching rows now key f = [r1, r2] →
      r1.date_insert ≠ r2.date_insert →
      BaseConfig.get_value rows now key f =
        BaseConfig.format_value
          (if r2.date_insert > r1.date_insert then r2 else r1).value
          (if r2.date_insert > r1.date_insert then r2 else r1).format := by
  intro rows now key f r1 r2 h _
  by_cases hlt : r2.date_insert > r1.date_insert <;>
    simp [BaseConfig.get_value, h, BaseConfig.latest_by_date_insert, hlt]

theorem C6_witness :
    cfgK1.date_insert ≠ cfgK2.date_insert ∧
    BaseConfig.get_value [cfgK1, cfgK2] 50 "k" ScopeFilter.empty =
      BaseConfig.format_value
        (if cfgK2.date_insert > cfgK1.date_insert then cfgK2 else cfgK1).value
        (if cfgK2.date_insert > cfgK1.date_insert then cfgK2 else cfgK1).format :=
  ⟨by decide,
    C6_get_value_latest_wins [cfgK1, cfgK2] 50 "k" ScopeFilter.empty cfgK1 cfgK2
      rfl (by decide)⟩

/-- C2 counterexample: `key` is a `unique=True` column, so a second row with
the same key is rejected by the storage layer even though it differs on
`site` — the claim's "the same key may exist in multiple rows provided they
differ on at least one of key_group, site, channel, or article" fails. -/
theorem C2_counterexample :
    cfgSite2.key = cfgK1.key ∧ cfgSite2.site ≠ cfgK1.site ∧
    BaseConfig.insert [cfgK1] cfgSite2 = Except.error PyErr.integrityError :=
  ⟨rfl, by decide, rfl⟩

/-- C2 (amended): a second insert identical on all five fields of
(`key_group`, `key`, `site`, `channel`, `article`) is rejected, but so is any
insert whose `key` already occurs in the table — the `key` column itself is
`unique=True`, so the same key can never exist in two rows, whatever the
other four fields are; an insert with a fresh key succeeds. -/
theorem C2_amended_uniqueness :
    (∀ (rows : List BaseConfig) (r x : BaseConfig), x ∈ rows → x.key = r.key →
      BaseConfig.insert rows r = Except.error PyErr.integrityError) ∧
    (∀ (rows : List BaseConfig) (r : BaseConfig),
      (∀ x ∈ rows, x.key ≠ r.key) →
      BaseConfig.insert rows r = Except.ok (rows ++ [r])) := by
  constructor
  · intro rows r x hx hk
    have h1 : rows.any (fun x => BaseConfig.key_conflict x r) = true :=
      List.any_eq_true.mpr ⟨x, hx, by simp [BaseConfig.key_conflict, hk]⟩
    simp [BaseConfig.insert, h1]
  · intro rows r h
    have h1 : rows.any (fun x => BaseConfig.key_conflict x r) = false := by
      rw [Bool.eq_false_iff]
      intro hc
      obtain ⟨x, hx, hpx⟩ := List.any_eq_true.mp hc
      exact h x hx (by simpa [BaseConfig.key_conflict] using hpx)
    have h2 : rows.any (fun x => BaseConfig.tuple_conflict x r) = false := by
      rw [Bool.eq_false_iff]
      intro hc
      obtain ⟨x, hx, hpx⟩ := List.any_eq_true.mp hc
      have hkey : (x.key == r.key) = true := by
        simp only [BaseConfig.tuple_conflict, Bool.and_eq_true] at hpx
        exact hpx.1.1.1.2
      exact h x hx (by simpa using hkey)
    simp [BaseConfig.insert, h1, h2]

theorem C2_witness :
    BaseConfig.insert [cfgK1] cfgK2 = Except.error PyErr.integrityError ∧
    BaseConfig.insert [cfgK1] cfgJ = Except.ok ([cfgK1] ++ [cfgJ]) :=
  ⟨C2_amended_uniqueness.1 [cfgK1] cfgK2 cfgK1 (by simp) rfl,
    C2_amended_uniqueness.2 [cfgK1] cfgJ (by decide)⟩

/-- C10: for a Slugged subclass without `get_absolute_url`, `save` never
creates a redirect — the redirect table is left unchanged and the primary
save commits — whatever the instance's previous state (in particular also for
a persisted instance whose slug changed). -/
theorem C10_no_capability_no_redirect :
    ∀ (cls : SluggedClass) (self : Slugged) (db : SlugDB),
      cls.hasGetAbsoluteUrl = false →
      Slugged.save cls self db = Except.ok (Slugged.model_save db self) ∧
      (Slugged.model_save db self).redirects = db.redirects := by
  intro cls self db h
  exact ⟨by simp [Slugged.save, h], Slugged.model_save_redirects db self⟩

theorem C10_witness :
    Slugged.save noUrlCls rowB dbA = Except.ok (Slugged.model_save dbA rowB) ∧
    (Slugged.model_save dbA rowB).redirects = dbA.redirects :=
  C10_no_capability_no_redirect noUrlCls rowB dbA rfl

/-- C1: saving a persisted `Slugged` instance (with path capability) whose
slug changed creates exactly one redirect, from the canonical path of the
previously stored object (bearing the old slug) to the canonical path of the
new one; saving a brand-new instance (no primary key yet) never creates a
redirect. -/
theorem C1_slug_change_creates_one_redirect :
    (∀ (cls : SluggedClass) (self : Slugged) (db : SlugDB) (pk : Nat)
        (old : Slugged) (pA pB : String),
      cls.hasGetAbsoluteUrl = true →
      self.pk = Option.some pk →
      db.objects.find? (fun o => o.pk == Option.some pk) = Option.some old →
      old.slug ≠ self.slug →
      cls.get_absolute_url old = Option.some pA →
      cls.get_absolute_url self = Option.some pB →
      ∃ db2, Slugged.save cls self db = Except.ok db2 ∧
        db2.redirects = db.redirects ++ [⟨self.site, pA, pB⟩]) ∧
    (∀ (cls : SluggedClass) (self : Slugged) (db : SlugDB),
      self.pk = Option.none →
      ∃ db2, Slugged.save cls self db = Except.ok db2 ∧
        db2.redirects = db.redirects) := by
  constructor
  · intro cls self db pk old pA pB hcap hpk hfind hslug hold hnew
    refine ⟨Slugged.model_save
      ⟨db.objects, db.redirects ++ [⟨self.site, pA, pB⟩], db.nextPk⟩ self,
      ?_, ?_⟩
    · simp [Slugged.save, hcap, hpk, hfind, hslug, hold, hnew]
    · rw [Slugged.model_save_redirects]
  · intro cls self db hpk
    refine ⟨Slugged.model_save db self, ?_, Slugged.model_save_redirects db self⟩
    by_cases hcap : cls.hasGetAbsoluteUrl = true <;>
      simp [Slugged.save, hcap, hpk]

theorem C1_witness :
    (∃ db2, Slugged.save urlCls rowB dbA = Except.ok db2 ∧
      db2.redirects = dbA.redirects ++ [⟨rowB.site, "/a", "/b"⟩]) ∧
    (∃ db2, Slugged.save urlCls newB dbA = Except.ok db2 ∧
      db2.redirects = dbA.redirects) :=
  ⟨C1_slug_change_creates_one_redirect.1 urlCls rowB dbA 1 rowA "/a" "/b"
      rfl rfl rfl (by decide) rfl rfl,
    C1_slug_change_creates_one_redirect.2 urlCls newB dbA rfl⟩

/-- C4 counterexample: the redirect lookup in `Slugged.clean` is scoped to
the instance's site (`Redirect.objects.filter(site=site, old_path=path)`).
A redirect on a different site whose `old_path` equals the entity's intended
canonical path does not trigger the validation error: the full save succeeds
and the entity persists, so the claim as stated (old_path equality alone
forces failure) is false. -/
theorem C4_counterexample :
    urlCls.get_absolute_url newB = Option.some "/b" ∧
    (⟨2, "/b", "/c"⟩ : Redirect) ∈ dbCross.redirects ∧
    (⟨2, "/b", "/c"⟩ : Redirect).old_path = "/b" ∧
    Slugged.full_save urlCls newB dbCross =
      Except.ok ⟨[⟨Option.some 5, "b", 1⟩], [⟨2, "/b", "/c"⟩], 6⟩ :=
  ⟨rfl, by decide, rfl, rfl⟩

/-- C4 (amended): pre-save validation fails with "The URL already exists as a
redirect" and blocks persistence whenever a redirect record scoped to the
entity's site has `old_path` equal to the entity's intended canonical path. -/
theorem C4_amended_redirect_collision_blocks_save :
    ∀ (cls : SluggedClass) (self : Slugged) (db : SlugDB) (p : String)
      (r : Redirect),
      cls.hasGetAbsoluteUrl = true →
      cls.get_absolute_url self = Option.some p →
      r ∈ db.redirects → r.site = self.site → r.old_path = p →
      Slugged.full_save cls self db =
        Except.error (PyErr.validationError
          "The URL already exists as a redirect") := by
  intro cls self db p r hcap hurl hmem hsite hpath
  have hany : db.redirects.any
      (fun x => x.site == self.site && x.old_path == p) = true :=
    List.any_eq_true.mpr ⟨r, hmem, by simp [hsite, hpath]⟩
  simp [Slugged.full_save, Slugged.clean, hcap, hurl, hany]

theorem C4_witness :
    Slugged.full_save urlCls newB dbRedir =
      Except.error (PyErr.validationError
        "The URL already exists as a redirect") :=
  C4_amended_redirect_collision_blocks_save urlCls newB dbRedir "/b"
    ⟨1, "/b", "/c"⟩ rfl rfl (by decide) rfl rfl

/-- C3 counterexample: in `Slugged.save`, the redirect-creation step for a
slug change has no handler around `get_absolute_url`: when the path
computation raises, the exception propagates and the save is aborted — no
raw-slug fallback is used there, contradicting the claim. -/
theorem C3_counterexample :
    failUrlCls.hasGetAbsoluteUrl = true ∧
    failUrlCls.get_absolute_url rowA = Option.none ∧
    rowA.slug ≠ rowB.slug ∧
    Slugged.save failUrlCls rowB dbA = Except.error PyErr.exn :=
  ⟨rfl, rfl, by decide, rfl⟩

/-- C3 (amended): the raw-slug fallback lives in the pre-save validation
(`Slugged.clean`): when `get_absolute_url` raises there, the redirect lookup
uses the instance's raw `slug` value as the path and validation proceeds.  In
the redirect-creation step of `Slugged.save`, by contrast, a failing path
computation propagates and aborts the save. -/
theorem C3_amended_fallback_in_clean :
    (∀ (cls : SluggedClass) (self : Slugged) (db : SlugDB),
      cls.hasGetAbsoluteUrl = true →
      cls.get_absolute_url self = Option.none →
      Slugged.clean cls self db =
        (if db.redirects.any
            (fun r => r.site == self.site && r.old_path == self.slug)
         then Except.error (PyErr.validationError
            "The URL already exists as a redirect")
         else Except.ok ())) ∧
    (∀ (cls : SluggedClass) (self : Slugged) (db : SlugDB) (pk : Nat)
        (old : Slugged),
      cls.hasGetAbsoluteUrl = true →
      self.pk = Option.some pk →
      db.objects.find? (fun o => o.pk == Option.some pk) = Option.some old →
      old.slug ≠ self.slug →
      cls.get_absolute_url old = Option.none →
      Slugged.save cls self db = Except.error PyErr.exn) := by
  constructor
  · intro cls self db hcap hurl
    simp [Slugged.clean, hcap, hurl]
  · intro cls self db pk old hcap hpk hfind hslug hurl
    simp [Slugged.save, hcap, hpk, hfind, hslug, hurl]

theorem C3_witness :
    Slugged.clean failUrlCls rowB dbRawRedir =
      (if dbRawRedir.redirects.any
          (fun r => r.site == rowB.site && r.old_path == rowB.slug)
       then Except.error (PyErr.validationError
          "The URL already exists as a redirect")
       else Except.ok ()) ∧
    Slugged.save failUrlCls rowB dbA = Except.error PyErr.exn :=
  ⟨C3_amended_fallback_in_clean.1 failUrlCls rowB dbRawRedir rfl rfl,
    C3_amended_fallback_in_clean.2 failUrlCls rowB dbA 1 rowA rfl rfl rfl
      (by decide) rfl⟩
